import Mathlib

/-
Verification of the asynchronous job orchestration subsystem of the
cancelit repository: the Redis-backed job store (src/lib/redis/jobs.ts),
the Inngest analysis workflow (src/lib/inngest/functions.ts), and the
status / cancel / cleanup HTTP routes.

The embedding is shallow: the Redis database is a function from keys to
stored job records, each TypeScript store helper becomes a Lean function
(fallible helpers return `Except String`, mirroring `throw new Error`),
and the workflow engine is a fold over its ordered step list.
-/

namespace Cancelit

/-- JSON values: the transport format the job store writes with
JSON.stringify and reads back with JSON.parse. -/
inductive Json where
  | str : String → Json
  | num : Int → Json
  | bool : Bool → Json
  | null : Json
  | arr : List Json → Json
  | obj : List (String × Json) → Json

/-- The JobStatus union type of src/lib/types/jobs.ts. -/
inductive JobStatus where
  | pending
  | processing
  | complete
  | failed
  | cancelled
deriving DecidableEq

/-- The file type union accepted by createJob. -/
inductive FileType where
  | csv
  | pdf
deriving DecidableEq

/-- The AnalysisJob record of src/lib/types/jobs.ts. The result and
error payloads (FullAnalysisResult and UserError in TypeScript) are
carried as the JSON trees the wire transports; their internal structure
is opaque to the job store. Optional TypeScript fields become Option. -/
structure AnalysisJob where
  id : String
  status : JobStatus
  fileName : String
  fileType : FileType
  progress : Option Int := none
  step : Option String := none
  result : Option Json := none
  error : Option Json := none
  createdAt : Int
  updatedAt : Int

/-- The Redis key-value store, restricted to the job records this module
writes: a map from string keys to job records (the serialized form is
proved lossless separately, see decodeJob_encodeJob). -/
def Store : Type := String → Option AnalysisJob

/-- The store with no records. -/
def emptyStore : Store := fun _ => none

/-- redis.set for a job value. -/
def redisSet (s : Store) (key : String) (v : AnalysisJob) : Store :=
  fun k => if k = key then some v else s k

/-- redis.get for a job value. -/
def redisGet (s : Store) (key : String) : Option AnalysisJob := s key

/-- redis.del. -/
def redisDel (s : Store) (key : String) : Store :=
  fun k => if k = key then none else s k

/-- getJobKey from src/lib/redis/jobs.ts: prepends the job namespace. -/
def getJobKey (jobId : String) : String := "job:" ++ jobId

/-- createJob: writes a fresh record with pending status, progress 0 and
the initial step text, and returns it. -/
def createJob (s : Store) (jobId fileName : String) (fileType : FileType)
    (now : Int) : Store × AnalysisJob :=
  let job : AnalysisJob :=
    { id := jobId
      status := .pending
      fileName := fileName
      fileType := fileType
      progress := some 0
      step := some "Queued for processing"
      createdAt := now
      updatedAt := now }
  (redisSet s (getJobKey jobId) job, job)

/-- getJob: reads the record for an id, none when absent. -/
def getJob (s : Store) (jobId : String) : Option AnalysisJob :=
  redisGet s (getJobKey jobId)

/-- updateJobProgress: throws "Job ... not found" when the record is
absent; otherwise overwrites it with status processing and the given
progress and step. -/
def updateJobProgress (s : Store) (jobId : String) (progress : Int)
    (step : String) (now : Int) : Except String Store :=
  match getJob s jobId with
  | none => .error ("Job " ++ jobId ++ " not found")
  | some job =>
      .ok (redisSet s (getJobKey jobId)
        { job with
            status := .processing
            progress := some progress
            step := some step
            updatedAt := now })

/-- completeJob: throws "Job ... not found" when the record is absent;
otherwise overwrites it with status complete, progress 100, the final
step text and the result payload. -/
def completeJob (s : Store) (jobId : String) (result : Json)
    (now : Int) : Except String Store :=
  match getJob s jobId with
  | none => .error ("Job " ++ jobId ++ " not found")
  | some job =>
      .ok (redisSet s (getJobKey jobId)
        { job with
            status := .complete
            progress := some 100
            step := some "Analysis complete"
            result := some result
            updatedAt := now })

/-- failJob: throws "Job ... not found" when the record is absent;
otherwise overwrites it with status failed and the error payload. -/
def failJob (s : Store) (jobId : String) (error : Json)
    (now : Int) : Except String Store :=
  match getJob s jobId with
  | none => .error ("Job " ++ jobId ++ " not found")
  | some job =>
      .ok (redisSet s (getJobKey jobId)
        { job with
            status := .failed
            error := some error
            updatedAt := now })

/-- jobExists. -/
def jobExists (s : Store) (jobId : String) : Bool :=
  (getJob s jobId).isSome

/-- deleteJob. -/
def deleteJob (s : Store) (jobId : String) : Store :=
  redisDel s (getJobKey jobId)

/-- cancelJob: false when the record is absent or already complete or
failed; otherwise writes status cancelled with the cancellation step
text and returns true. -/
def cancelJob (s : Store) (jobId : String) (now : Int) : Store × Bool :=
  match getJob s jobId with
  | none => (s, false)
  | some job =>
      if job.status = .complete ∨ job.status = .failed then (s, false)
      else
        (redisSet s (getJobKey jobId)
          { job with
              status := .cancelled
              step := some "Cancelled by user"
              updatedAt := now }, true)

/-- isJobCancelled: true exactly when the record exists with status
cancelled. -/
def isJobCancelled (s : Store) (jobId : String) : Bool :=
  match getJob s jobId with
  | some job => job.status = .cancelled
  | none => false

/-! ## The Inngest workflow engine (src/lib/inngest/functions.ts)

analyzeFunction executes a fixed ordered list of steps. Every step body
begins with checkCancellation, which throws JobCancelledError when the
stored status is cancelled; the surrounding try/catch turns that error
into a graceful non-error return and turns any other error into a
failJob write followed by a rethrow. -/

/-- Errors a step body can throw: the JobCancelledError raised by
checkCancellation, or any other error message. -/
inductive EngineError where
  | jobCancelled : String → EngineError
  | other : String → EngineError
deriving DecidableEq

/-- checkCancellation: throws JobCancelledError when isJobCancelled. -/
def checkCancellation (s : Store) (jobId : String) :
    Except EngineError Unit :=
  if isJobCancelled s jobId then .error (.jobCancelled jobId) else .ok ()

/-- One step of analyzeFunction: a narrative progress write, the
long-running AI analysis call, or the final complete-job write. -/
inductive EngineStep where
  | progress : Int → String → EngineStep
  | analyze : EngineStep
  | completeStep : EngineStep
deriving DecidableEq

/-- The ordered step list of analyzeFunction, with the PROGRESS_STEPS
percentages and captions. -/
def stepList : List EngineStep :=
  [ .progress 5 "Starting analysis...",
    .progress 15 "Reading transaction data...",
    .progress 30 "Detecting transaction patterns...",
    .progress 50 "Categorizing transactions...",
    .analyze,
    .progress 70 "Identifying recurring subscriptions...",
    .progress 85 "Generating financial insights...",
    .progress 95 "Finalizing analysis...",
    .completeStep ]

/-- Runs one step body. `ai` is the outcome of the external
analyzeTransactions call (the engine treats it as opaque: a result JSON
or a thrown error). Every body consults checkCancellation before doing
its own work; a store-helper throw surfaces as EngineError.other. -/
def runStep (jobId : String) (ai : Except String Json) (now : Int)
    (st : EngineStep) (s : Store) : Except EngineError Store :=
  match checkCancellation s jobId with
  | .error e => .error e
  | .ok _ =>
      match st with
      | .progress p caption =>
          match updateJobProgress s jobId p caption now with
          | .ok s2 => .ok s2
          | .error m => .error (.other m)
      | .analyze =>
          match ai with
          | .ok _ => .ok s
          | .error m => .error (.other m)
      | .completeStep =>
          match ai with
          | .ok r =>
              match completeJob s jobId r now with
              | .ok s2 => .ok s2
              | .error m => .error (.other m)
          | .error m => .error (.other m)

/-- Runs the steps in order, stopping at the first thrown error; the
store reflects every write made before the error. -/
def runSteps (jobId : String) (ai : Except String Json) (now : Int) :
    List EngineStep → Store → Store × Option EngineError
  | [], s => (s, none)
  | st :: rest, s =>
      match runStep jobId ai now st s with
      | .ok s2 => runSteps jobId ai now rest s2
      | .error e => (s, some e)

/-- The value analyzeFunction resolves with: a success return, the
graceful cancelled return from the catch branch, or a rethrown error
(after the catch branch attempted a failJob write). -/
inductive RunResult where
  | success : RunResult
  | cancelledReturn : RunResult
  | failedThrow : String → RunResult
deriving DecidableEq

/-- The try/catch of analyzeFunction around a list of steps: a
JobCancelledError becomes the graceful cancelled return and writes
nothing; any other error is persisted with failJob (its own possible
throw is swallowed) and rethrown. -/
def runWithCatch (jobId : String) (ai : Except String Json)
    (now nowCatch : Int) (steps : List EngineStep) (s : Store) :
    Store × RunResult :=
  match runSteps jobId ai now steps s with
  | (s2, none) => (s2, .success)
  | (s2, some (.jobCancelled _)) => (s2, .cancelledReturn)
  | (s2, some (.other m)) =>
      match failJob s2 jobId (.str m) nowCatch with
      | .ok s3 => (s3, .failedThrow m)
      | .error _ => (s2, .failedThrow m)

/-- analyzeFunction: the full workflow run over its step list. -/
def analyzeFunction (jobId : String) (ai : Except String Json)
    (now nowCatch : Int) (s : Store) : Store × RunResult :=
  runWithCatch jobId ai now nowCatch stepList s

/-! ## Serialization (JSON.stringify / JSON.parse of an AnalysisJob)

JSON.stringify emits the defined fields of the record; optional fields
that are undefined are omitted. JSON.parse reads them back. -/

/-- The wire text of a JobStatus value. -/
def statusToString : JobStatus → String
  | .pending => "pending"
  | .processing => "processing"
  | .complete => "complete"
  | .failed => "failed"
  | .cancelled => "cancelled"

/-- Parses a JobStatus wire text. -/
def statusOfString : String → Option JobStatus
  | "pending" => some .pending
  | "processing" => some .processing
  | "complete" => some .complete
  | "failed" => some .failed
  | "cancelled" => some .cancelled
  | _ => none

/-- The wire text of a FileType value. -/
def fileTypeToString : FileType → String
  | .csv => "csv"
  | .pdf => "pdf"

/-- Parses a FileType wire text. -/
def fileTypeOfString : String → Option FileType
  | "csv" => some .csv
  | "pdf" => some .pdf
  | _ => none

/-- Field lookup in a serialized JSON object. -/
def jlookup : List (String × Json) → String → Option Json
  | [], _ => none
  | (k, v) :: rest, key => if k = key then some v else jlookup rest key

/-- JSON.stringify of an AnalysisJob: an object holding the defined
fields; undefined optional fields are omitted. -/
def encodeJob (j : AnalysisJob) : Json :=
  .obj
    ([("id", .str j.id),
      ("status", .str (statusToString j.status)),
      ("fileName", .str j.fileName),
      ("fileType", .str (fileTypeToString j.fileType))]
    ++ (match j.progress with
        | some p => [("progress", Json.num p)]
        | none => [])
    ++ (match j.step with
        | some caption => [("step", Json.str caption)]
        | none => [])
    ++ (match j.result with
        | some r => [("result", r)]
        | none => [])
    ++ (match j.error with
        | some e => [("error", e)]
        | none => [])
    ++ [("createdAt", .num j.createdAt), ("updatedAt", .num j.updatedAt)])

/-- JSON.parse of a serialized AnalysisJob back into the record. -/
def decodeJob : Json → Option AnalysisJob
  | .obj fields =>
      match jlookup fields "id" with
      | some (.str id) =>
        match jlookup fields "status" with
        | some (.str statusTxt) =>
          match statusOfString statusTxt with
          | some status =>
            match jlookup fields "fileName" with
            | some (.str fileName) =>
              match jlookup fields "fileType" with
              | some (.str fileTypeTxt) =>
                match fileTypeOfString fileTypeTxt with
                | some fileType =>
                  match jlookup fields "createdAt" with
                  | some (.num createdAt) =>
                    match jlookup fields "updatedAt" with
                    | some (.num updatedAt) =>
                        some
                          { id := id
                            status := status
                            fileName := fileName
                            fileType := fileType
                            progress :=
                              match jlookup fields "progress" with
                              | some (.num p) => some p
                              | _ => none
                            step :=
                              match jlookup fields "step" with
                              | some (.str caption) => some caption
                              | _ => none
                            result := jlookup fields "result"
                            error := jlookup fields "error"
                            createdAt := createdAt
                            updatedAt := updatedAt }
                    | _ => none
                  | _ => none
                | _ => none
              | _ => none
            | _ => none
          | _ => none
        | _ => none
      | _ => none
  | _ => none

/-! ## HTTP routes (status, cancel, cleanup)

Each route validates the jobId length before touching the store, then
answers with a JSON body, an HTTP status code, and (for the status
route's 200 answer) a cache-disabling header. -/

/-- A NextResponse.json answer: HTTP status code, JSON body, and the
Cache-Control header when one is set. -/
structure HttpResponse where
  status : Nat
  body : Json
  cacheControl : Option String := none

/-- Field lookup in a response body. -/
def bodyField (r : HttpResponse) (key : String) : Option Json :=
  match r.body with
  | .obj fields => jlookup fields key
  | _ => none

/-- The jobId validation shared by the three routes: rejects a missing
jobId or one shorter than 10 characters. -/
def invalidJobId (jobId : String) : Bool := jobId.length < 10

/-- GET of the status polling route: 400 on an invalid jobId, 404 with
the not-found body when the record is absent, otherwise 200 with the
JobStatusResponse body (data only for a complete job with a result,
error only for a failed job with an error) and a no-store header. -/
def statusRoute (s : Store) (jobId : String) : HttpResponse :=
  if invalidJobId jobId then
    { status := 400, body := .obj [("error", .str "Invalid job ID")] }
  else
    match getJob s jobId with
    | none =>
        { status := 404,
          body := .obj
            [("error", .str "Job not found or expired"),
             ("suggestion",
              .str "Please upload your file again to start a new analysis.")] }
    | some job =>
        { status := 200,
          body := .obj
            ([("status", Json.str (statusToString job.status))]
            ++ (match job.progress with
                | some p => [("progress", Json.num p)]
                | none => [])
            ++ (match job.step with
                | some caption => [("step", Json.str caption)]
                | none => [])
            ++ (match job.status, job.result with
                | .complete, some r => [("data", r)]
                | _, _ => [])
            ++ (match job.status, job.error with
                | .failed, some e => [("error", e)]
                | _, _ => [])),
          cacheControl := some "no-store, max-age=0" }

/-- POST of the cancel route: 400 on an invalid jobId, 404 when the job
does not exist, 400 when cancelJob refuses (already complete or
failed), otherwise 200; also returns the store cancelJob produced. -/
def cancelRoute (s : Store) (jobId : String) (now : Int) :
    Store × HttpResponse :=
  if invalidJobId jobId then
    (s, { status := 400,
          body := .obj
            [("success", .bool false), ("error", .str "Invalid job ID")] })
  else
    match getJob s jobId with
    | none =>
        (s, { status := 404,
              body := .obj
                [("success", .bool false), ("error", .str "Job not found")] })
    | some _ =>
        match cancelJob s jobId now with
        | (s2, true) =>
            (s2, { status := 200,
                   body := .obj
                     [("success", .bool true),
                      ("message", .str "Job cancelled")] })
        | (s2, false) =>
            (s2, { status := 400,
                   body := .obj
                     [("success", .bool false),
                      ("error",
                       .str "Job cannot be cancelled (already complete or failed)")] })

/-- DELETE of the cleanup route: 400 on an invalid jobId, 200 when the
record is already gone, 400 for a job that is not yet terminal,
otherwise deletes the record and answers 200; also returns the
resulting store. -/
def cleanupRoute (s : Store) (jobId : String) : Store × HttpResponse :=
  if invalidJobId jobId then
    (s, { status := 400,
          body := .obj
            [("success", .bool false), ("error", .str "Invalid job ID")] })
  else
    match getJob s jobId with
    | none =>
        (s, { status := 200,
              body := .obj
                [("success", .bool true),
                 ("message", .str "Job already cleaned up")] })
    | some job =>
        if job.status = .complete ∨ job.status = .failed ∨
            job.status = .cancelled then
          (deleteJob s jobId,
           { status := 200,
             body := .obj
               [("success", .bool true), ("message", .str "Job cleaned up")] })
        else
          (s, { status := 400,
                body := .obj
                  [("success", .bool false),
                   ("error", .str "Cannot cleanup active job")] })

/-! ## Derived helpers used by the statements -/

/-- The store a fallible helper produced, or a fallback when it threw. -/
def okOr (res : Except String Store) (fallback : Store) : Store :=
  match res with
  | .ok s => s
  | .error _ => fallback

/-- The stored status of a job after a fallible store helper, none when
the helper threw or the record is absent. -/
def statusAfter (res : Except String Store) (jobId : String) :
    Option JobStatus :=
  match res with
  | .ok s => (getJob s jobId).map AnalysisJob.status
  | .error _ => none

/-- The stores reachable from the empty store through the job-store
API. -/
inductive Reachable : Store → Prop where
  | empty : Reachable emptyStore
  | create (s : Store) (jobId fileName : String) (fileType : FileType)
      (now : Int) : Reachable s →
      Reachable (createJob s jobId fileName fileType now).1
  | update (s s2 : Store) (jobId : String) (p : Int) (caption : String)
      (now : Int) : Reachable s →
      updateJobProgress s jobId p caption now = .ok s2 → Reachable s2
  | complete (s s2 : Store) (jobId : String) (r : Json) (now : Int) :
      Reachable s → completeJob s jobId r now = .ok s2 → Reachable s2
  | fail (s s2 : Store) (jobId : String) (e : Json) (now : Int) :
      Reachable s → failJob s jobId e now = .ok s2 → Reachable s2
  | cancel (s : Store) (jobId : String) (now : Int) :
      Reachable s → Reachable (cancelJob s jobId now).1
  | delete (s : Store) (jobId : String) :
      Reachable s → Reachable (deleteJob s jobId)

/-! ## Concrete stores and records used by witnesses and
counterexamples -/

/-- The record created for the witness job. -/
def wJob : AnalysisJob :=
  { id := "witness-job-01"
    status := .pending
    fileName := "stmt.csv"
    fileType := .csv
    progress := some 0
    step := some "Queued for processing"
    createdAt := 0
    updatedAt := 0 }

/-- A store holding one freshly created pending job. -/
def wStore : Store :=
  (createJob emptyStore "witness-job-01" "stmt.csv" .csv 0).1

/-- A store holding one job that has already been completed. -/
def cDoneStore : Store :=
  okOr
    (completeJob (createJob emptyStore "job-done-00001" "a.csv" .csv 0).1
      "job-done-00001" .null 1)
    emptyStore

/-- The record cDoneStore holds. -/
def cDoneJob : AnalysisJob :=
  { id := "job-done-00001"
    status := .complete
    fileName := "a.csv"
    fileType := .csv
    progress := some 100
    step := some "Analysis complete"
    result := some .null
    createdAt := 0
    updatedAt := 1 }

/-- A job that is created, then failed, then completed: the store-level
sequence a host retry of the workflow performs after a failure. -/
def cBothStore0 : Store :=
  (createJob emptyStore "job-both-00001" "a.csv" .csv 0).1

/-- The store after the failJob write. -/
def cBothStore1 : Store :=
  okOr (failJob cBothStore0 "job-both-00001" (.str "boom") 1) emptyStore

/-- The store after the subsequent completeJob write. -/
def cBothStore : Store :=
  okOr (completeJob cBothStore1 "job-both-00001" .null 2) emptyStore

/-! ## Helper lemmas -/

theorem getJob_redisSet_self (s : Store) (jobId : String)
    (v : AnalysisJob) : getJob (redisSet s (getJobKey jobId) v) jobId = some v := by
  simp [getJob, redisGet, redisSet]

theorem redisSet_forall {P : AnalysisJob → Prop} (s : Store) (key : String)
    (v : AnalysisJob) (hs : ∀ k job, s k = some job → P job) (hv : P v) :
    ∀ k job, redisSet s key v k = some job → P job := by
  intro k job hk
  unfold redisSet at hk
  by_cases hkey : k = key
  · rw [if_pos hkey] at hk
    injection hk with hvj
    exact hvj ▸ hv
  · rw [if_neg hkey] at hk
    exact hs k job hk

theorem redisDel_forall {P : AnalysisJob → Prop} (s : Store) (key : String)
    (hs : ∀ k job, s k = some job → P job) :
    ∀ k job, redisDel s key k = some job → P job := by
  intro k job hk
  unfold redisDel at hk
  by_cases hkey : k = key
  · rw [if_pos hkey] at hk
    cases hk
  · rw [if_neg hkey] at hk
    exact hs k job hk

theorem completeJob_ok (s : Store) (jobId : String) (r : Json) (now : Int)
    (job : AnalysisJob) (h : getJob s jobId = some job) :
    completeJob s jobId r now = .ok (redisSet s (getJobKey jobId)
      { job with
          status := .complete
          progress := some 100
          step := some "Analysis complete"
          result := some r
          updatedAt := now }) := by
  have h2 : s (getJobKey jobId) = some job := h
  simp [completeJob, h2, getJob, redisGet]

theorem runWithCatch_cancelled (jobId : String) (ai : Except String Json)
    (now nowCatch : Int) (st : EngineStep) (sts : List EngineStep)
    (s : Store) (h : isJobCancelled s jobId = true) :
    runWithCatch jobId ai now nowCatch (st :: sts) s =
      (s, .cancelledReturn) := by
  simp [runWithCatch, runSteps, runStep, checkCancellation, h]

/-! ## Claim C4 -/

/-- C4: on an id with no stored record, updateJobProgress, completeJob
and failJob each fail with the "not found" error and produce no store,
so no record for that id exists afterward. -/
theorem missing_id_ops_fail (s : Store) (jobId : String)
    (h : getJob s jobId = none) (p : Int) (caption : String) (r e : Json)
    (now : Int) :
    updateJobProgress s jobId p caption now =
      .error ("Job " ++ jobId ++ " not found") ∧
    completeJob s jobId r now = .error ("Job " ++ jobId ++ " not found") ∧
    failJob s jobId e now = .error ("Job " ++ jobId ++ " not found") ∧
    getJob s jobId = none := by
  refine ⟨?_, ?_, ?_, h⟩ <;>
    simp [updateJobProgress, completeJob, failJob, h]

/-- C4 witness at a concrete missing id. -/
theorem missing_id_ops_fail_witness :
    getJob emptyStore "missing-job-0001" = none ∧
    updateJobProgress emptyStore "missing-job-0001" 5 "x" 0 =
      .error ("Job " ++ "missing-job-0001" ++ " not found") :=
  ⟨rfl,
   (missing_id_ops_fail emptyStore "missing-job-0001" rfl 5 "x" .null .null 0).1⟩

/-! ## Claim C5 -/

/-- C5: cancelJob on an existing complete or failed job returns false
and leaves the store unchanged; on an existing pending or processing
job it returns true and the record then reads back as cancelled. -/
theorem cancelJob_contract (s : Store) (jobId : String) (now : Int)
    (job : AnalysisJob) (h : getJob s jobId = some job) :
    ((job.status = .complete ∨ job.status = .failed) →
      cancelJob s jobId now = (s, false)) ∧
    ((job.status = .pending ∨ job.status = .processing) →
      (cancelJob s jobId now).2 = true ∧
      (getJob (cancelJob s jobId now).1 jobId).map AnalysisJob.status =
        some JobStatus.cancelled) := by
  have h2 : s (getJobKey jobId) = some job := h
  refine ⟨fun hterm => ?_, fun hrun => ?_⟩
  · rcases hterm with h1 | h1 <;> simp [cancelJob, h, h1]
  · rcases hrun with h1 | h1 <;>
      simp [cancelJob, h, h2, h1, getJob, redisGet, redisSet]

/-- C5 witness at a concrete pending job. -/
theorem cancelJob_contract_witness :
    getJob wStore "witness-job-01" = some wJob ∧
    ((wJob.status = .pending ∨ wJob.status = .processing) →
      (cancelJob wStore "witness-job-01" 1).2 = true ∧
      (getJob (cancelJob wStore "witness-job-01" 1).1 "witness-job-01").map
          AnalysisJob.status = some JobStatus.cancelled) :=
  ⟨rfl, (cancelJob_contract wStore "witness-job-01" 1 wJob rfl).2⟩

/-! ## Claim C7 -/

theorem statusOfString_statusToString (status : JobStatus) :
    statusOfString (statusToString status) = some status := by
  cases status <;> rfl

theorem fileTypeOfString_fileTypeToString (fileType : FileType) :
    fileTypeOfString (fileTypeToString fileType) = some fileType := by
  cases fileType <;> rfl

/-- Serialization is lossless: JSON.parse of JSON.stringify of a job
record is the identical record. -/
theorem decodeJob_encodeJob (j : AnalysisJob) :
    decodeJob (encodeJob j) = some j := by
  rcases j with ⟨id, status, fileName, fileType, progress, step, result, error,
    createdAt, updatedAt⟩
  rcases progress with _ | p <;> rcases step with _ | caption <;>
    rcases result with _ | r <;> rcases error with _ | e <;>
      simp [encodeJob, decodeJob, jlookup, statusOfString_statusToString,
        fileTypeOfString_fileTypeToString]

/-- C7: createJob followed by getJob yields the created record, which
has status pending, progress 0 and the initial step caption, and the
record survives the transport serialization round trip unchanged. -/
theorem createJob_get_roundtrip (s : Store) (jobId fileName : String)
    (fileType : FileType) (now : Int) :
    getJob (createJob s jobId fileName fileType now).1 jobId =
      some (createJob s jobId fileName fileType now).2 ∧
    (createJob s jobId fileName fileType now).2.status = .pending ∧
    (createJob s jobId fileName fileType now).2.progress = some 0 ∧
    (createJob s jobId fileName fileType now).2.step =
      some "Queued for processing" ∧
    decodeJob (encodeJob (createJob s jobId fileName fileType now).2) =
      some (createJob s jobId fileName fileType now).2 :=
  ⟨getJob_redisSet_self s jobId _, rfl, rfl, rfl, decodeJob_encodeJob _⟩

/-! ## Claim C8 -/

/-- C8: completeJob called twice in a row with the same result succeeds
both times; the stored result after the second call is the result the
first call stored, and the second call changes neither status nor
progress. -/
theorem completeJob_idempotent (s : Store) (jobId : String) (r : Json)
    (now1 now2 : Int) (job : AnalysisJob)
    (h : getJob s jobId = some job) :
    ∃ s1, completeJob s jobId r now1 = .ok s1 ∧
      ∃ s2, completeJob s1 jobId r now2 = .ok s2 ∧
        (getJob s1 jobId).map AnalysisJob.result = some (some r) ∧
        (getJob s2 jobId).map AnalysisJob.result = some (some r) ∧
        (getJob s2 jobId).map AnalysisJob.status =
          (getJob s1 jobId).map AnalysisJob.status ∧
        (getJob s2 jobId).map AnalysisJob.progress =
          (getJob s1 jobId).map AnalysisJob.progress := by
  refine ⟨_, completeJob_ok s jobId r now1 job h, _,
    completeJob_ok _ jobId r now2 _ (getJob_redisSet_self s jobId _),
    ?_, ?_, ?_, ?_⟩ <;>
    simp [getJob_redisSet_self]

/-- C8 witness at a concrete existing job. -/
theorem completeJob_idempotent_witness :
    getJob wStore "witness-job-01" = some wJob ∧
    ∃ s1, completeJob wStore "witness-job-01" .null 1 = .ok s1 ∧
      ∃ s2, completeJob s1 "witness-job-01" .null 2 = .ok s2 ∧
        (getJob s1 "witness-job-01").map AnalysisJob.result =
          some (some .null) ∧
        (getJob s2 "witness-job-01").map AnalysisJob.result =
          some (some .null) ∧
        (getJob s2 "witness-job-01").map AnalysisJob.status =
          (getJob s1 "witness-job-01").map AnalysisJob.status ∧
        (getJob s2 "witness-job-01").map AnalysisJob.progress =
          (getJob s1 "witness-job-01").map AnalysisJob.progress :=
  ⟨rfl, completeJob_idempotent wStore "witness-job-01" .null 1 2 wJob rfl⟩

/-! ## Claim C1 -/

theorem cancelJob_true_status (s : Store) (jobId : String) (now : Int)
    (h : (cancelJob s jobId now).2 = true) :
    isJobCancelled (cancelJob s jobId now).1 jobId = true ∧
    (getJob (cancelJob s jobId now).1 jobId).map AnalysisJob.status =
      some JobStatus.cancelled := by
  cases hj : getJob s jobId with
  | none =>
      have hfalse : cancelJob s jobId now = (s, false) := by
        simp [cancelJob, hj]
      rw [hfalse] at h
      simp at h
  | some job =>
      by_cases hterm : job.status = .complete ∨ job.status = .failed
      · have hfalse : cancelJob s jobId now = (s, false) := by
          simp [cancelJob, hj, hterm]
        rw [hfalse] at h
        simp at h
      · have heq : cancelJob s jobId now = (redisSet s (getJobKey jobId)
            { job with
                status := .cancelled
                step := some "Cancelled by user"
                updatedAt := now }, true) := by
          simp [cancelJob, hj, hterm]
        rw [heq]
        simp [isJobCancelled, getJob, redisGet, redisSet]

/-- C1: once cancelJob has succeeded, the engine's complete-job step
(the final pre-completion cancellation check followed by the completeJob
call) leaves the store untouched and returns the graceful cancelled
outcome, so the record's status remains cancelled, never complete. -/
theorem sticky_cancellation (s0 : Store) (jobId : String) (r : Json)
    (nowCancel now nowCatch : Int)
    (h : (cancelJob s0 jobId nowCancel).2 = true) :
    runWithCatch jobId (.ok r) now nowCatch [.completeStep]
        (cancelJob s0 jobId nowCancel).1 =
      ((cancelJob s0 jobId nowCancel).1, .cancelledReturn) ∧
    (getJob (cancelJob s0 jobId nowCancel).1 jobId).map AnalysisJob.status =
      some JobStatus.cancelled := by
  obtain ⟨hc, hst⟩ := cancelJob_true_status s0 jobId nowCancel h
  exact ⟨runWithCatch_cancelled jobId (.ok r) now nowCatch _ _ _ hc, hst⟩

/-- C1 witness: a pending job that is cancelled and then reaches the
complete-job step. -/
theorem sticky_cancellation_witness :
    (cancelJob wStore "witness-job-01" 1).2 = true ∧
    runWithCatch "witness-job-01" (.ok .null) 2 3 [.completeStep]
        (cancelJob wStore "witness-job-01" 1).1 =
      ((cancelJob wStore "witness-job-01" 1).1, .cancelledReturn) ∧
    (getJob (cancelJob wStore "witness-job-01" 1).1 "witness-job-01").map
        AnalysisJob.status = some JobStatus.cancelled :=
  ⟨rfl,
   (sticky_cancellation wStore "witness-job-01" .null 1 2 3 rfl).1,
   (sticky_cancellation wStore "witness-job-01" .null 1 2 3 rfl).2⟩

/-! ## Claim C6 -/

/-- C6: at every step boundary the engine consults the cancellation
gate first: with the job cancelled, the run of any remaining step list
performs no further write (the store is returned unchanged) and
terminates with the graceful cancelled outcome rather than a failure,
and in particular the full analyzeFunction run does so as well, so the
cancellation is never persisted through failJob. -/
theorem gate_consulted_before_each_step (jobId : String)
    (ai : Except String Json) (now nowCatch : Int) (st : EngineStep)
    (sts : List EngineStep) (s : Store)
    (h : isJobCancelled s jobId = true) :
    runWithCatch jobId ai now nowCatch (st :: sts) s =
      (s, .cancelledReturn) ∧
    analyzeFunction jobId ai now nowCatch s = (s, .cancelledReturn) := by
  constructor
  · exact runWithCatch_cancelled jobId ai now nowCatch st sts s h
  · show runWithCatch jobId ai now nowCatch stepList s = (s, .cancelledReturn)
    exact runWithCatch_cancelled jobId ai now nowCatch _ _ s h

/-- C6 witness: a concrete cancelled job and the full workflow run. -/
theorem gate_consulted_witness :
    isJobCancelled (cancelJob wStore "witness-job-01" 1).1 "witness-job-01" =
      true ∧
    analyzeFunction "witness-job-01" (.ok .null) 2 3
        (cancelJob wStore "witness-job-01" 1).1 =
      ((cancelJob wStore "witness-job-01" 1).1, .cancelledReturn) :=
  ⟨rfl,
   (gate_consulted_before_each_step "witness-job-01" (.ok .null) 2 3
     .analyze [] (cancelJob wStore "witness-job-01" 1).1 rfl).2⟩

/-! ## Claim C2 -/

/-- C2 counterexample: updateJobProgress on a job whose stored status is
complete overwrites the status to processing, so complete is not
terminal at the store level and the transition leaves the claimed
graph. -/
theorem terminal_immutable_counterexample :
    (getJob cDoneStore "job-done-00001").map AnalysisJob.status =
      some JobStatus.complete ∧
    statusAfter (updateJobProgress cDoneStore "job-done-00001" 50 "x" 2)
        "job-done-00001" = some JobStatus.processing ∧
    statusAfter (updateJobProgress cDoneStore "job-done-00001" 50 "x" 2)
        "job-done-00001" ≠ some JobStatus.complete :=
  ⟨rfl, rfl, by decide⟩

/-- C2 amended: only cancelJob guards the terminal statuses — on an
existing complete or failed job it returns false and leaves the store
unchanged — while updateJobProgress, completeJob and failJob overwrite
the status of any existing record to processing, complete and failed
respectively, regardless of its current status. -/
theorem terminal_guard_only_in_cancel (s : Store) (jobId : String)
    (now : Int) (job : AnalysisJob) (h : getJob s jobId = some job)
    (p : Int) (caption : String) (r e : Json) :
    ((job.status = .complete ∨ job.status = .failed) →
      cancelJob s jobId now = (s, false)) ∧
    statusAfter (updateJobProgress s jobId p caption now) jobId =
      some JobStatus.processing ∧
    statusAfter (completeJob s jobId r now) jobId =
      some JobStatus.complete ∧
    statusAfter (failJob s jobId e now) jobId = some JobStatus.failed := by
  have h2 : s (getJobKey jobId) = some job := h
  refine ⟨fun hterm => ?_, ?_, ?_, ?_⟩
  · rcases hterm with h1 | h1 <;> simp [cancelJob, h, h1]
  all_goals
    simp [statusAfter, updateJobProgress, completeJob, failJob, h, h2,
      getJob, redisGet, redisSet]

/-- C2 amended witness at a concrete completed job. -/
theorem terminal_guard_only_in_cancel_witness :
    getJob cDoneStore "job-done-00001" =
      some { id := "job-done-00001"
             status := .complete
             fileName := "a.csv"
             fileType := .csv
             progress := some 100
             step := some "Analysis complete"
             result := some .null
             createdAt := 0
             updatedAt := 1 } ∧
    statusAfter (updateJobProgress cDoneStore "job-done-00001" 50 "x" 2)
        "job-done-00001" = some JobStatus.processing :=
  ⟨rfl,
   (terminal_guard_only_in_cancel cDoneStore "job-done-00001" 2 _ rfl
     50 "x" .null .null).2.1⟩

/-! ## Claim C3 -/

/-- Every record in a reachable store satisfies: status complete implies
the result payload is present, and status failed implies the error
payload is present. -/
theorem reachable_invariant (s : Store) (h : Reachable s) :
    ∀ k job, s k = some job →
      (job.status = .complete → job.result.isSome = true) ∧
      (job.status = .failed → job.error.isSome = true) := by
  induction h with
  | empty => intro k job hk; cases hk
  | create s jobId fileName fileType now _ ih =>
      intro k job hk
      simp only [createJob] at hk
      exact redisSet_forall s (getJobKey jobId) _ ih (by simp) k job hk
  | update s s2 jobId p caption now _ hEq ih =>
      cases hj : getJob s jobId with
      | none => simp [updateJobProgress, hj] at hEq
      | some job0 =>
          simp [updateJobProgress, hj] at hEq
          subst hEq
          exact redisSet_forall s (getJobKey jobId) _ ih (by simp)
  | complete s s2 jobId r now _ hEq ih =>
      cases hj : getJob s jobId with
      | none => simp [completeJob, hj] at hEq
      | some job0 =>
          simp [completeJob, hj] at hEq
          subst hEq
          exact redisSet_forall s (getJobKey jobId) _ ih (by simp)
  | fail s s2 jobId e now _ hEq ih =>
      cases hj : getJob s jobId with
      | none => simp [failJob, hj] at hEq
      | some job0 =>
          simp [failJob, hj] at hEq
          subst hEq
          exact redisSet_forall s (getJobKey jobId) _ ih (by simp)
  | cancel s jobId now _ ih =>
      cases hj : getJob s jobId with
      | none => simpa [cancelJob, hj] using ih
      | some job0 =>
          by_cases hterm : job0.status = .complete ∨ job0.status = .failed
          · simpa [cancelJob, hj, hterm] using ih
          · have heq : (cancelJob s jobId now).1 = redisSet s (getJobKey jobId)
                { job0 with
                    status := .cancelled
                    step := some "Cancelled by user"
                    updatedAt := now } := by
              simp [cancelJob, hj, hterm]
            rw [heq]
            exact redisSet_forall s (getJobKey jobId) _ ih (by simp)
  | delete s jobId _ ih =>
      intro k job hk
      simp only [deleteJob] at hk
      exact redisDel_forall s (getJobKey jobId) ih k job hk

/-- C3 amended: on every reachable job record, status complete implies
the result payload is present and status failed implies the error
payload is present; the reverse implications and the mutual exclusion
of result and error do not hold, because neither field is ever cleared
by a later transition. -/
theorem reachable_terminal_fields (s : Store) (h : Reachable s)
    (jobId : String) (job : AnalysisJob)
    (hget : getJob s jobId = some job) :
    (job.status = .complete → job.result.isSome = true) ∧
    (job.status = .failed → job.error.isSome = true) :=
  reachable_invariant s h (getJobKey jobId) job hget

/-- C3 counterexample: a reachable record (create, then fail, then
complete) whose status is complete while both the result and the error
payloads are present — error present without status failed, and result
and error are not mutually exclusive. -/
theorem result_error_not_exclusive_counterexample :
    Reachable cBothStore ∧
    (getJob cBothStore "job-both-00001").map AnalysisJob.status =
      some JobStatus.complete ∧
    (getJob cBothStore "job-both-00001").map
        (fun j => j.error.isSome) = some true ∧
    (getJob cBothStore "job-both-00001").map
        (fun j => j.result.isSome) = some true := by
  refine ⟨?_, rfl, rfl, rfl⟩
  exact Reachable.complete cBothStore1 cBothStore "job-both-00001" .null 2
    (Reachable.fail cBothStore0 cBothStore1 "job-both-00001" (.str "boom") 1
      (Reachable.create emptyStore "job-both-00001" "a.csv" .csv 0
        Reachable.empty) rfl) rfl

/-- C3 amended witness at a concrete reachable completed job. -/
theorem reachable_terminal_fields_witness :
    getJob cDoneStore "job-done-00001" = some cDoneJob ∧
    (cDoneJob.status = .complete → cDoneJob.result.isSome = true) ∧
    (cDoneJob.status = .failed → cDoneJob.error.isSome = true) :=
  ⟨rfl,
   reachable_terminal_fields cDoneStore
     (Reachable.complete (createJob emptyStore "job-done-00001" "a.csv" .csv 0).1
       cDoneStore "job-done-00001" .null 1
       (Reachable.create emptyStore "job-done-00001" "a.csv" .csv 0
         Reachable.empty) rfl)
     "job-done-00001" cDoneJob rfl⟩

/-! ## Claim C9 -/

/-- C9 counterexample: a status query for a jobId shorter than 10
characters with no stored record answers 400, not the claimed 404. -/
theorem status_route_short_id_counterexample :
    getJob emptyStore "short" = none ∧
    (statusRoute emptyStore "short").status = 400 ∧
    (statusRoute emptyStore "short").status ≠ 404 :=
  ⟨rfl, rfl, by decide⟩

/-- C9 amended: for a jobId of at least 10 characters, a status query
with no stored record answers 404 with the machine-readable
not-found/expired body; with a stored record it answers 200 with the
job's status, includes data only when the status is complete, includes
error only when the status is failed, and carries the cache-disabling
header. -/
theorem status_route_contract (s : Store) (jobId : String)
    (h : 10 ≤ jobId.length) :
    (getJob s jobId = none →
      (statusRoute s jobId).status = 404 ∧
      bodyField (statusRoute s jobId) "error" =
        some (.str "Job not found or expired") ∧
      bodyField (statusRoute s jobId) "suggestion" =
        some (.str "Please upload your file again to start a new analysis.")) ∧
    (∀ job, getJob s jobId = some job →
      (statusRoute s jobId).status = 200 ∧
      bodyField (statusRoute s jobId) "status" =
        some (.str (statusToString job.status)) ∧
      (∀ d, bodyField (statusRoute s jobId) "data" = some d →
        job.status = .complete) ∧
      (∀ e, bodyField (statusRoute s jobId) "error" = some e →
        job.status = .failed) ∧
      (statusRoute s jobId).cacheControl = some "no-store, max-age=0") := by
  have hv : invalidJobId jobId = false := by
    simp [invalidJobId]
    omega
  constructor
  · intro hnone
    refine ⟨?_, ?_, ?_⟩ <;> simp [statusRoute, hv, hnone, bodyField, jlookup]
  · intro job hj
    refine ⟨?_, ?_, ?_, ?_, ?_⟩ <;>
      rcases job with ⟨id, status, fileName, fileType, progress, step, result,
        error, createdAt, updatedAt⟩ <;>
      cases status <;>
        rcases progress with _ | p <;> rcases step with _ | caption <;>
          rcases result with _ | r <;> rcases error with _ | e <;>
            simp [statusRoute, hv, hj, bodyField, jlookup]

/-- C9 amended witness: a valid-length jobId over the empty store and
over a store holding a pending job. -/
theorem status_route_contract_witness :
    10 ≤ ("witness-job-01" : String).length ∧
    ((getJob emptyStore "witness-job-01" = none →
      (statusRoute emptyStore "witness-job-01").status = 404 ∧
      bodyField (statusRoute emptyStore "witness-job-01") "error" =
        some (.str "Job not found or expired") ∧
      bodyField (statusRoute emptyStore "witness-job-01") "suggestion" =
        some (.str "Please upload your file again to start a new analysis.")) ∧
    (∀ job, getJob emptyStore "witness-job-01" = some job →
      (statusRoute emptyStore "witness-job-01").status = 200 ∧
      bodyField (statusRoute emptyStore "witness-job-01") "status" =
        some (.str (statusToString job.status)) ∧
      (∀ d, bodyField (statusRoute emptyStore "witness-job-01") "data" =
          some d → job.status = .complete) ∧
      (∀ e, bodyField (statusRoute emptyStore "witness-job-01") "error" =
          some e → job.status = .failed) ∧
      (statusRoute emptyStore "witness-job-01").cacheControl =
        some "no-store, max-age=0")) :=
  ⟨by decide, status_route_contract emptyStore "witness-job-01" (by decide)⟩

/-! ## Claim C10 -/

/-- C10: a jobId shorter than 10 characters is rejected with 400
"Invalid job ID" by the status, cancel and cleanup routes; the answer
does not depend on the store, the store is not modified, and the 404
not-found answer can never arise. -/
theorem short_jobid_rejected_everywhere (jobId : String)
    (h : jobId.length < 10) (s s2 : Store) (now : Int) :
    (statusRoute s jobId).status = 400 ∧
    bodyField (statusRoute s jobId) "error" = some (.str "Invalid job ID") ∧
    statusRoute s jobId = statusRoute s2 jobId ∧
    (statusRoute s jobId).status ≠ 404 ∧
    (cancelRoute s jobId now).1 = s ∧
    (cancelRoute s jobId now).2.status = 400 ∧
    (cancelRoute s jobId now).2 = (cancelRoute s2 jobId now).2 ∧
    (cancelRoute s jobId now).2.status ≠ 404 ∧
    (cleanupRoute s jobId).1 = s ∧
    (cleanupRoute s jobId).2.status = 400 ∧
    (cleanupRoute s jobId).2 = (cleanupRoute s2 jobId).2 := by
  have hv : invalidJobId jobId = true := by
    simp [invalidJobId]
    omega
  refine ⟨?_, ?_, ?_, ?_, ?_, ?_, ?_, ?_, ?_, ?_, ?_⟩ <;>
    simp [statusRoute, cancelRoute, cleanupRoute, bodyField, jlookup, hv]

/-- C10 witness at the concrete short jobId "abc". -/
theorem short_jobid_rejected_witness :
    ("abc" : String).length < 10 ∧
    (statusRoute emptyStore "abc").status = 400 ∧
    bodyField (statusRoute emptyStore "abc") "error" =
      some (.str "Invalid job ID") ∧
    statusRoute emptyStore "abc" = statusRoute wStore "abc" ∧
    (statusRoute emptyStore "abc").status ≠ 404 ∧
    (cancelRoute emptyStore "abc" 0).1 = emptyStore ∧
    (cancelRoute emptyStore "abc" 0).2.status = 400 ∧
    (cancelRoute emptyStore "abc" 0).2 = (cancelRoute wStore "abc" 0).2 ∧
    (cancelRoute emptyStore "abc" 0).2.status ≠ 404 ∧
    (cleanupRoute emptyStore "abc").1 = emptyStore ∧
    (cleanupRoute emptyStore "abc").2.status = 400 ∧
    (cleanupRoute emptyStore "abc").2 = (cleanupRoute wStore "abc").2 :=
  ⟨by decide, short_jobid_rejected_everywhere "abc" (by decide) emptyStore wStore 0⟩

end Cancelit
